import Mathlib

/-!
Shallow embedding of the aha-webscraper core (files `aha/api.py`,
`aha/parsers.py`, `aha/types.py`, `aha/exceptions.py`, `aha/functions.py`).
Python strings are modelled as Lean `String` values (lists of characters);
the remote site is modelled as an oracle mapping requests to responses
whose documents carry the already-parsed table rows and selector options.
-/

namespace Aha

/-! ## String machinery (models of the Python `str` operations used) -/

/-- Lexicographic code-point comparison of character lists, the model of
Python string `<` used in tuple ordering. -/
def charsLt : List Char → List Char → Bool
  | _, [] => false
  | [], _ :: _ => true
  | x :: xs, y :: ys =>
    if x.toNat < y.toNat then true
    else if x.toNat = y.toNat then charsLt xs ys
    else false

/-- Fuel-bounded worker for `str_replace`; the fuel is always instantiated
with the input length, which suffices because every step consumes at least
one character. -/
def str_replace_aux (pat repl : List Char) : Nat → List Char → List Char
  | _, [] => []
  | 0, l => l
  | fuel + 1, x :: xs =>
    if !pat.isEmpty && pat.isPrefixOf (x :: xs) then
      repl ++ str_replace_aux pat repl fuel (List.drop (pat.length - 1) xs)
    else
      x :: str_replace_aux pat repl fuel xs

/-- Model of Python `str.replace`: replaces every occurrence of `pat`
(leftmost first, non-overlapping) by `repl`.  Only used with non-empty
patterns, as in the source. -/
def str_replace (s pat repl : String) : String :=
  String.mk (str_replace_aux pat.data repl.data s.data.length s.data)

/-- Model of Python `str.split` with a one-character separator. -/
def splitAtChar (c : Char) : List Char → List (List Char)
  | [] => [[]]
  | x :: xs =>
    let rest := splitAtChar c xs
    if x = c then [] :: rest
    else
      match rest with
      | [] => [[x]]
      | g :: gs => (x :: g) :: gs

/-! ## Regular expressions (`aha/parsers.py`)

The patterns produced by `street_regex` consist of literal characters plus
the two-character sequence `.*` introduced for each literal dot, compiled
with `re.IGNORECASE`.  `Tok.star` stands for one such `.*` wildcard. -/

/-- One token of a compiled street pattern. -/
inductive Tok where
  | lit (c : Char)
  | star
deriving DecidableEq

/-- Case-insensitive character comparison (model of `re.IGNORECASE` on the
ASCII-plus-eszett alphabet that occurs in street names; `Char.toLower` is
the identity on non-ASCII characters such as 'ß', as is Python lowercasing). -/
def eqNoCase (a b : Char) : Bool := a.toLower == b.toLower

/-- Backtracking helper for the `.*` wildcard: try to hand every suffix of
the input over to the continuation. -/
def matchStar (next : List Char → Bool) : List Char → Bool
  | [] => next []
  | x :: xs => next (x :: xs) || matchStar next xs

/-- Model of `Pattern.fullmatch`: the token list must consume the whole
input. -/
def re_fullmatch : List Tok → List Char → Bool
  | [], s => s.isEmpty
  | Tok.lit c :: ts, s =>
    match s with
    | [] => false
    | x :: xs => eqNoCase c x && re_fullmatch ts xs
  | Tok.star :: ts, s => matchStar (re_fullmatch ts) s

/-- Model of `Pattern.match`: the pattern matches at position zero,
consuming some prefix of the input. -/
def re_match (ts : List Tok) (s : List Char) : Bool :=
  (List.range (s.length + 1)).any fun n => re_fullmatch ts (s.take n)

/-- `STREET_MAP` from `aha/parsers.py`, in its insertion (iteration)
order. -/
def STREET_MAP : List (String × String) :=
  [("strasse", "str."), ("straße", "str"), ("Strasse", "Str."), ("Straße", "Str.")]

/-- Compiling a street string after suffix normalization: every literal `.`
was rewritten to `.*` before `re.compile`, hence becomes a `Tok.star`. -/
def compilePattern (s : String) : List Tok :=
  s.data.map fun c => if c = '.' then Tok.star else Tok.lit c

/-- `street_regex` from `aha/parsers.py`: the first `STREET_MAP` key that
the street ends with is replaced (everywhere, via `str.replace`) by its
value, then the result is compiled with dots as wildcards, ignoring case. -/
def street_regex (street : String) : List Tok :=
  let normalized :=
    match STREET_MAP.find? (fun kv => kv.fst.data.isSuffixOf street.data) with
    | some kv => str_replace street kv.fst kv.snd
    | none => street
  compilePattern normalized

/-! ## Locations (`aha/types.py`) -/

/-- `Location` from `aha/types.py`: a named tuple `(id, name, district)`. -/
structure Location where
  id : String
  name : String
  district : String
deriving DecidableEq

/-- Python tuple `<` on `Location`: lexicographic on `(id, name, district)`. -/
def locLt (a b : Location) : Bool :=
  charsLt a.id.data b.id.data ||
    (a.id == b.id && (charsLt a.name.data b.name.data ||
      (a.name == b.name && charsLt a.district.data b.district.data)))

/-- Stable insertion of a location into an ascending list. -/
def insertLoc (x : Location) : List Location → List Location
  | [] => [x]
  | y :: ys => if locLt y x then y :: insertLoc x ys else x :: y :: ys

/-- Model of Python `sorted` on locations (stable, ascending by `locLt`). -/
def sortLocs (l : List Location) : List Location :=
  l.foldr insertLoc []

/-- `Location.__str__`: the three fields joined by `@`. -/
def Location.toStr (l : Location) : String :=
  String.mk (l.id.data ++ '@' :: (l.name.data ++ '@' :: l.district.data))

/-- `Location.from_string`: split on `@` and rebuild the named tuple; any
arity other than three is a `TypeError` in Python, modelled as `none`. -/
def Location.from_string (s : String) : Option Location :=
  match splitAtChar '@' s.data with
  | [i, n, d] => some ⟨String.mk i, String.mk n, String.mk d⟩
  | _ => none

/-! ## Location lookup (`find_location` in `aha/api.py`) -/

/-- Errors raised by `find_location` (`aha/exceptions.py`). -/
inductive LookupError where
  | noLocationFound (name : String)
  | ambiguousLocations (locs : List Location)
deriving DecidableEq

/-- The name filter of `find_location`: `street_regex(name).match(location.name)`. -/
def matchesName (query : String) (l : Location) : Bool :=
  re_match (street_regex query) l.name.data

/-- The district filter of `find_location`:
`district is None or location.district == district`. -/
def matchesDistrict (district : Option String) (l : Location) : Bool :=
  match district with
  | none => true
  | some d => l.district == d

/-- The sorted survivors of both filters, as bound by
`location, *superfluous = sorted(...)` in `find_location`. -/
def survivors (catalog : List Location) (name : String) (district : Option String) :
    List Location :=
  sortLocs (catalog.filter fun l => matchesName name l && matchesDistrict district l)

/-- `find_location` from `aha/api.py`: destructure the sorted survivors;
an empty list is a `ValueError` turned into `NoLocationFound`, a non-empty
tail raises `AmbiguousLocations` over all survivors. -/
def find_location (catalog : List Location) (name : String) (district : Option String) :
    Except LookupError Location :=
  match survivors catalog name district with
  | [] => .error (.noLocationFound name)
  | loc :: superfluous =>
    if superfluous.isEmpty then .ok loc
    else .error (.ambiguousLocations (loc :: superfluous))

/-! ## House numbers (`aha/types.py`) -/

/-- `HouseNumber` named tuple. -/
structure HouseNumber where
  number : Nat
  suffix : String
deriving DecidableEq

/-- Model of `int` on a non-empty string of digits. -/
def digitsToNat (ds : List Char) : Nat :=
  ds.foldl (fun n c => 10 * n + (c.toNat - '0'.toNat)) 0

/-- `HouseNumber.split_number_and_suffix`: scan leading digits; `index`
ends at the first non-digit (or, if every character is a digit, at the last
position); the suffix collects every ASCII letter from `string[index:]`.
An input with no leading digit makes `int('')` raise `ValueError`,
modelled as `none`.  Python `str.isdigit` is modelled as ASCII digits and
`string.ascii_letters` as `Char.isAlpha`. -/
def split_number_and_suffix (s : String) : Option (Nat × String) :=
  let cs := s.data
  let nds := cs.takeWhile fun c => c.isDigit
  if nds.isEmpty then none
  else
    let index := if nds.length = cs.length then cs.length - 1 else nds.length
    some (digitsToNat nds, String.mk ((cs.drop index).filter Char.isAlpha))

/-- `HouseNumber.from_string`. -/
def HouseNumber.from_string (s : String) : Option HouseNumber :=
  (split_number_and_suffix s).map fun p => ⟨p.fst, p.snd⟩

/-! ## Pickups, requests and the resolver (`aha/types.py`, `aha/api.py`) -/

/-- Calendar date value as produced by `parse_date`. -/
structure PDate where
  year : Nat
  month : Nat
  day : Nat
deriving DecidableEq

/-- `Interval` enumeration from `aha/types.py`. -/
inductive Interval where
  | fortnightly
  | weekly
deriving DecidableEq

/-- `Pickup` named tuple from `aha/types.py`. -/
structure Pickup where
  type : String
  image : String
  weekday : String
  dates : List PDate
  interval : Interval
deriving DecidableEq

/-- `Request` named tuple from `aha/types.py`. -/
structure Request where
  location : Location
  house_number : HouseNumber
  municipality : String
  pickup_location : Option String
deriving DecidableEq

/-- `Request.change_location`: a copy of the request with a new pickup
location. -/
def Request.change_location (r : Request) (pl : String) : Request :=
  ⟨r.location, r.house_number, r.municipality, some pl⟩

/-- The response document as seen by `_get_pickups` after HTML parsing:
`table` is the parsed list of pickups when a `<table>` element is present
(what `parse_pickups` yields), `ladeort` is the list of option values of
the element with id `ladeort` when that element is present (what
`get_pickup_locations` yields; `none` models the absent element, for which
`document.find` returns Python `None`). -/
structure Document where
  table : Option (List Pickup)
  ladeort : Option (List String)
deriving DecidableEq

/-- An HTTP response from the remote site: status code, raw body text and
the parsed document. -/
structure Response where
  status : Nat
  text : String
  doc : Document
deriving DecidableEq

/-- The failure modes of the resolver.  `http` is `HTTPError` carrying
body and status code, `scraping` is `ScrapingError`, `attrError` is the
Python `AttributeError` raised when `document.find(id="ladeort")` returns
`None` and `.find_all` is called on it, and `fuelExhausted` marks
exhaustion of the recursion bound of this embedding (never reached on the
concrete inputs below). -/
inductive PyError where
  | http (text : String) (code : Nat)
  | scraping (msg : String)
  | attrError
  | fuelExhausted
deriving DecidableEq

/-- `_get_pickups` from `aha/api.py`, with the remote site as an oracle
`fetch` and an explicit recursion bound: a non-200 status raises
`HTTPError`; a table yields its parsed pickups; otherwise the original
`ScrapingError` is caught and `pickup_location, *_ =
get_pickup_locations(document)` is attempted — an absent `ladeort`
element raises `AttributeError`, an empty one raises `ValueError`, which
re-raises the `ScrapingError`, and otherwise the resolver recurses once
with the FIRST option value. -/
def get_pickups_aux (fetch : Request → Response) : Nat → Request → Except PyError (List Pickup)
  | 0, _ => .error .fuelExhausted
  | fuel + 1, req =>
    let resp := fetch req
    if resp.status = 200 then
      match resp.doc.table with
      | some rows => .ok rows
      | none =>
        match resp.doc.ladeort with
        | none => .error .attrError
        | some [] => .error (.scraping "Could not find table element")
        | some (v :: _) => get_pickups_aux fetch fuel (req.change_location v)
    else .error (.http resp.text resp.status)

/-- `get_pickups` from `aha/api.py`: builds the initial request with the
given pickup location (defaulting to `None`) and runs the resolver. -/
def get_pickups (fetch : Request → Response) (fuel : Nat) (location : Location)
    (house_number : HouseNumber) (municipality : String)
    (pickup_location : Option String) : Except PyError (List Pickup) :=
  get_pickups_aux fetch fuel ⟨location, house_number, municipality, pickup_location⟩

/-- Sequentially run `f` on every element and concatenate the results,
stopping at the first error. -/
def seqConcat (f : String → Except PyError (List Pickup)) :
    List String → Except PyError (List Pickup)
  | [] => .ok []
  | v :: vs => do
    let ps ← f v
    let rest ← seqConcat f vs
    pure (ps ++ rest)

/-- Modelled from the spec: the fan-out resolver the specification
describes for `_get_pickups` — "for each option value `v` in the selector,
recursively run the whole procedure with a Request whose `pickup_location
= v`; concatenate (in selector order) all yielded pickups across
branches".  This definition exists only to be compared against
`get_pickups_aux`, which is what the source actually does. -/
def spec_get_pickups_fanout (fetch : Request → Response) :
    Nat → Request → Except PyError (List Pickup)
  | 0, _ => .error .fuelExhausted
  | fuel + 1, req =>
    let resp := fetch req
    if resp.status = 200 then
      match resp.doc.table with
      | some rows => .ok rows
      | none =>
        match resp.doc.ladeort with
        | none => .error .attrError
        | some [] => .error (.scraping "Could not find table element")
        | some opts =>
          seqConcat (fun v => spec_get_pickups_fanout fetch fuel (req.change_location v)) opts
    else .error (.http resp.text resp.status)

/-- Modelled from the spec: the full-anchored name filter the
specification describes for the Location Directory — "a candidate
location matches the query if its published name fully matches (anchored
at both ends) this pattern".  Exists only to be compared against
`matchesName`, the filter the source actually applies. -/
def spec_full_name_filter (query : String) (l : Location) : Bool :=
  re_fullmatch (street_regex query) l.name.data

/-! ## The per-day pickup cache (`get_cached_pickups` in `aha/functions.py`) -/

/-- The module-level `CACHE` dict: after any call it holds at most one day
key, so it is modelled as an optional day stamp plus the inner
per-location dict (an association list keyed by `Location`).  An empty
`CACHE` has `day = none`. -/
structure Cache where
  day : Option Nat
  entries : List (Location × List Pickup)
deriving DecidableEq

/-- Association-list lookup, the model of `locations[location]`. -/
def lookupLoc (loc : Location) : List (Location × List Pickup) → Option (List Pickup)
  | [] => none
  | (l, ps) :: rest => if l = loc then some ps else lookupLoc loc rest

/-- `get_cached_pickups` from `aha/functions.py`, with the fetch
`list(get_pickups(location, house_number))` as an oracle and the current
day as a parameter: if the stamped day is not today the whole cache is
cleared and restamped; then the inner dict is consulted by location and,
on a miss, the fetched pickups are inserted under that location. -/
def get_cached_pickups (fetchPickups : Location → String → List Pickup) (today : Nat)
    (cache : Cache) (location : Location) (house_number : String) :
    List Pickup × Cache :=
  let entries := if cache.day = some today then cache.entries else []
  match lookupLoc location entries with
  | some ps => (ps, ⟨some today, entries⟩)
  | none =>
    let pickups := fetchPickups location house_number
    (pickups, ⟨some today, entries ++ [(location, pickups)]⟩)

/-! ## Concrete fixtures used by the closed theorems below -/

deriving instance DecidableEq for Except

/-- A sample pickup record. -/
def p1 : Pickup := ⟨"Restabfall", "/img/rest.png", "Montag", [⟨2024, 1, 8⟩], .weekly⟩

/-- A second sample pickup record. -/
def p2 : Pickup := ⟨"Bioabfall", "/img/bio.png", "Dienstag", [⟨2024, 1, 9⟩], .fortnightly⟩

/-- A third sample pickup record. -/
def p3 : Pickup := ⟨"Papier", "/img/papier.png", "Mittwoch", [⟨2024, 1, 10⟩], .fortnightly⟩

/-- The Nordstadt catalog entry of the specification's worked example. -/
def locFen01 : Location := ⟨"01", "Fenskestr.", "Nordstadt"⟩

/-- The List catalog entry of the specification's worked example. -/
def locFen02 : Location := ⟨"02", "Fenskestr.", "List"⟩

/-- A location whose name strictly extends the query "Foo". -/
def locFoobar : Location := ⟨"01", "Foobar", "X"⟩

/-- A location named exactly "Foo". -/
def locFoo : Location := ⟨"01", "Foo", "Mitte"⟩

/-- A second location named exactly "Foo", in another district. -/
def locFoo2 : Location := ⟨"02", "Foo", "List"⟩

/-- A base request used by the resolver theorems. -/
def reqBase : Request := ⟨locFen01, ⟨25, "a"⟩, "Hannover", none⟩

/-- Oracle for the fan-out example: the initial request answers with a
selector holding codes "A" then "B"; retrying with "A" answers with a
table holding `[p1]`, retrying with "B" with a table holding `[p2, p3]`. -/
def fetchFanout : Request → Response := fun req =>
  match req.pickup_location with
  | none => ⟨200, "", ⟨none, some ["A", "B"]⟩⟩
  | some v => if v = "A" then ⟨200, "", ⟨some [p1], none⟩⟩ else ⟨200, "", ⟨some [p2, p3], none⟩⟩

/-- Oracle answering with a document holding neither a table nor a
`ladeort` element. -/
def fetchNoTableNoSelector : Request → Response := fun _ => ⟨200, "", ⟨none, none⟩⟩

/-- Oracle answering with a document holding no table and an empty
`ladeort` selector. -/
def fetchNoTableEmptySelector : Request → Response := fun _ => ⟨200, "", ⟨none, some []⟩⟩

/-- Oracle answering with HTTP status 204 (a 2xx success code) and a
well-formed table. -/
def fetch204 : Request → Response := fun _ => ⟨204, "no content", ⟨some [p1], none⟩⟩

/-- Oracle answering with HTTP status 200 and a table. -/
def fetch200 : Request → Response := fun _ => ⟨200, "", ⟨some [p2, p3], none⟩⟩

/-- A location used by the cache theorems. -/
def locTest : Location := ⟨"03", "Teststr.", "Mitte"⟩

/-- A pickup fetcher whose answer depends on the house number. -/
def fetchByHn : Location → String → List Pickup := fun _ hn => if hn = "1" then [p1] else [p2]

/-! ## Claim theorems -/

/-- C1, counterexample: on the spec's own worked example — a selector with
codes "A" then "B" whose branches yield `[p1]` and `[p2, p3]` — the
resolver returns only the first branch's `[p1]`, not the concatenation
`[p1, p2, p3]` the claim demands; the fan-out resolver modelled from the
spec's words would return the concatenation. -/
theorem c1_fanout_counterexample :
    get_pickups_aux fetchFanout 2 reqBase = .ok [p1]
    ∧ spec_get_pickups_fanout fetchFanout 2 reqBase = .ok [p1, p2, p3]
    ∧ (Except.ok [p1] : Except PyError (List Pickup)) ≠ .ok [p1, p2, p3] := by
  decide

/-- C1, amended: when a 200 response has no results table but a
pickup-point selector with at least one option, the resolver re-runs the
whole lookup exactly once, with a request whose pickup location is the
FIRST option value; all remaining options are discarded, so the aggregate
output is exactly that single branch's output. -/
theorem c1_first_option_recursion (fetch : Request → Response) (fuel : Nat) (req : Request)
    (v : String) (vs : List String)
    (hstatus : (fetch req).status = 200)
    (htable : (fetch req).doc.table = none)
    (hsel : (fetch req).doc.ladeort = some (v :: vs)) :
    get_pickups_aux fetch (fuel + 1) req = get_pickups_aux fetch fuel (req.change_location v) := by
  simp [get_pickups_aux, hstatus, htable, hsel]

/-- C1, witness: the amended recursion shape applied to the concrete
fan-out oracle. -/
theorem c1_first_option_recursion_witness :
    get_pickups_aux fetchFanout 2 reqBase = get_pickups_aux fetchFanout 1 (reqBase.change_location "A") :=
  c1_first_option_recursion fetchFanout 1 reqBase "A" ["B"] (by decide) (by decide) (by decide)

/-- C3: a 200 response whose document has neither a table nor a `ladeort`
element makes the resolver raise the unhandled `AttributeError` from
`None.find_all` — not the `ScrapingError` the claim (and the code's own
`except ValueError: raise error` fallback) intends; the `ScrapingError`
path is only reached when the `ladeort` element exists but is empty. -/
theorem c3_missing_selector_attribute_error :
    get_pickups_aux fetchNoTableNoSelector 1 reqBase = .error .attrError
    ∧ get_pickups_aux fetchNoTableNoSelector 1 reqBase
      ≠ .error (.scraping "Could not find table element")
    ∧ get_pickups_aux fetchNoTableEmptySelector 1 reqBase
      = .error (.scraping "Could not find table element") := by
  decide

/-- C4, counterexample: for the query "Foo" and a location named "Foobar",
the full-anchored filter the claim describes rejects the location, yet
`find_location` accepts and returns it, because the source filters with
`Pattern.match`, which is anchored at the start only. -/
theorem c4_fullmatch_counterexample :
    spec_full_name_filter "Foo" locFoobar = false
    ∧ matchesName "Foo" locFoobar = true
    ∧ find_location [locFoobar] "Foo" none = .ok locFoobar := by
  decide

/-- C4, amended: a location survives the name filter iff some prefix of
its published name fully matches the pattern (anchoring at the start
only); in particular a name that merely begins with a match but has
trailing extra characters still survives, as "Foobar" does for "Foo". -/
theorem c4_name_filter_prefix_anchored :
    (∀ (query : String) (l : Location), matchesName query l = true ↔
      ∃ n, n ≤ l.name.data.length ∧ re_fullmatch (street_regex query) (l.name.data.take n) = true)
    ∧ matchesName "Foo" locFoobar = true
    ∧ spec_full_name_filter "Foo" locFoobar = false := by
  refine ⟨fun query l => ?_, by decide, by decide⟩
  simp [matchesName, re_match, List.any_eq_true, List.mem_range, Nat.lt_succ_iff]

/-- C5, counterexample: on the catalog of the claim's worked example the
ambiguous list comes out ordered by id — the ("01", …, "Nordstadt") entry
first — not by name with a district tiebreak, which would have put the
("02", …, "List") entry first. -/
theorem c5_order_counterexample :
    find_location [locFen01, locFen02] "Fenskestr." none
      = .error (.ambiguousLocations [locFen01, locFen02])
    ∧ (Except.error (.ambiguousLocations [locFen01, locFen02]) : Except LookupError Location)
      ≠ .error (.ambiguousLocations [locFen02, locFen01]) := by
  decide

/-- C5, amended: locations are ordered by their field tuple
(id, name, district), primarily by id; on the worked example the
ambiguous list holds both entries in id order regardless of the catalog's
own order (the district tiebreak the claim expects would have ordered
"List" first, as `charsLt` shows), and with district "List" exactly the
("02", "Fenskestr.", "List") entry is returned. -/
theorem c5_tuple_order_primarily_id :
    locLt locFen01 locFen02 = true
    ∧ charsLt "List".data "Nordstadt".data = true
    ∧ find_location [locFen01, locFen02] "Fenskestr." none
      = .error (.ambiguousLocations [locFen01, locFen02])
    ∧ find_location [locFen02, locFen01] "Fenskestr." none
      = .error (.ambiguousLocations [locFen01, locFen02])
    ∧ find_location [locFen01, locFen02] "Fenskestr." (some "List") = .ok locFen02 := by
  decide

/-- C6, counterexample: after a first lookup with house number "1" is
cached, a same-day lookup for the same location with house number "2"
returns the cached `[p1]` instead of performing its own fetch, which
would have returned `[p2]` — the cache key ignores the house number. -/
theorem c6_house_number_counterexample :
    (get_cached_pickups fetchByHn 7
        (get_cached_pickups fetchByHn 7 ⟨none, []⟩ locTest "1").2 locTest "2").1 = [p1]
    ∧ fetchByHn locTest "2" = [p2]
    ∧ ([p1] : List Pickup) ≠ [p2] := by
  decide

/-- C6, amended: the per-day cache is keyed by location only — on a
same-day hit the stored pickups are returned unchanged for any house
number and any fetcher, with the cache untouched — and whenever the
current day differs from the stamped day the cache is wholesale-cleared,
restamped, and repopulated with just the fresh entry. -/
theorem c6_cache_by_location_and_day_clear (f g : Location → String → List Pickup)
    (today : Nat) (c : Cache) (loc : Location) (hn hn2 : String) (ps : List Pickup) :
    (c.day = some today → lookupLoc loc c.entries = some ps →
      get_cached_pickups f today c loc hn = (ps, c)
      ∧ get_cached_pickups g today c loc hn2 = (ps, c))
    ∧ (c.day ≠ some today →
      get_cached_pickups f today c loc hn = (f loc hn, ⟨some today, [(loc, f loc hn)]⟩)) := by
  obtain ⟨d, entries⟩ := c
  constructor
  · intro hday hhit
    constructor <;> simp_all [get_cached_pickups]
  · intro hday
    simp_all [get_cached_pickups, lookupLoc]

/-- C6, witness: the amended cache behaviour applied to a concrete cache
holding `[p1]` for the test location under day 7. -/
theorem c6_cache_witness :
    get_cached_pickups fetchByHn 7 ⟨some 7, [(locTest, [p1])]⟩ locTest "1"
      = ([p1], ⟨some 7, [(locTest, [p1])]⟩)
    ∧ get_cached_pickups fetchByHn 7 ⟨some 7, [(locTest, [p1])]⟩ locTest "2"
      = ([p1], ⟨some 7, [(locTest, [p1])]⟩)
    ∧ get_cached_pickups fetchByHn 8 ⟨some 7, [(locTest, [p1])]⟩ locTest "2"
      = (fetchByHn locTest "2", ⟨some 8, [(locTest, fetchByHn locTest "2")]⟩) :=
  ⟨((c6_cache_by_location_and_day_clear fetchByHn fetchByHn 7 ⟨some 7, [(locTest, [p1])]⟩
      locTest "1" "2" [p1]).1 (by decide) (by decide)).1,
   ((c6_cache_by_location_and_day_clear fetchByHn fetchByHn 7 ⟨some 7, [(locTest, [p1])]⟩
      locTest "1" "2" [p1]).1 (by decide) (by decide)).2,
   (c6_cache_by_location_and_day_clear fetchByHn fetchByHn 8 ⟨some 7, [(locTest, [p1])]⟩
      locTest "2" "2" [p1]).2 (by decide)⟩

/-- C7, counterexample: for the recognized suffix spelling "straße" the
claimed instance fails — `street_regex "Musterstraße"` does not fully
match "Musterstr.", because that spelling is mapped to "str" without a
trailing dot, so no wildcard is produced. -/
theorem c7_eszett_counterexample :
    re_fullmatch (street_regex "Musterstraße") "Musterstr.".data = false := by
  decide

/-- C7, amended: the builder replaces every occurrence of the first
suffix spelling the street ends with (strasse→"str.", straße→"str",
Strasse→"Str.", Straße→"Str.", in that enumeration order), each literal
dot becomes a zero-or-more wildcard, and matching ignores case; the
fullmatch instance holds for "strasse", "Strasse" and "Straße" but fails
for "straße" (where only a prefix match holds), and the replacement is
not limited to the suffix occurrence, as "strassenstrasse" shows. -/
theorem c7_street_regex_normalization :
    street_regex "Musterstrasse" = compilePattern "Musterstr."
    ∧ street_regex "Musterstraße" = compilePattern "Musterstr"
    ∧ street_regex "MusterStrasse" = compilePattern "MusterStr."
    ∧ street_regex "MusterStraße" = compilePattern "MusterStr."
    ∧ street_regex "strassenstrasse" = compilePattern "str.nstr."
    ∧ re_fullmatch (street_regex "Musterstrasse") "Musterstr.".data = true
    ∧ re_fullmatch (street_regex "MusterStrasse") "Musterstr.".data = true
    ∧ re_fullmatch (street_regex "MusterStraße") "Musterstr.".data = true
    ∧ re_fullmatch (street_regex "MusterStrasse") "MUSTERSTR.".data = true
    ∧ re_fullmatch (street_regex "Musterstraße") "Musterstr.".data = false
    ∧ re_match (street_regex "Musterstraße") "Musterstr.".data = true := by
  decide

/-- C9, counterexample: a response with status 204 — a 2xx success code —
and a well-formed results table is rejected with a transport error
instead of being processed, because the source compares against the
literal 200. -/
theorem c9_status_204_counterexample :
    get_pickups_aux fetch204 1 reqBase = .error (.http "no content" 204)
    ∧ (204 : Nat) ≠ 200 ∧ 200 ≤ 204 ∧ 204 < 300 := by
  decide

/-- C9, amended: the resolver raises the transport error, carrying the
response body and status code, exactly when the fetched status is not the
literal 200; a 200 response with a results table is processed into its
pickups without a transport error. -/
theorem c9_http_error_iff_not_200 (fetch : Request → Response) (fuel : Nat) (req : Request) :
    ((fetch req).status ≠ 200 →
      get_pickups_aux fetch (fuel + 1) req = .error (.http (fetch req).text (fetch req).status))
    ∧ ((fetch req).status = 200 → ∀ rows, (fetch req).doc.table = some rows →
      get_pickups_aux fetch (fuel + 1) req = .ok rows) := by
  constructor
  · intro h
    simp [get_pickups_aux, h]
  · intro h rows hrows
    simp [get_pickups_aux, h, hrows]

/-- C9, witness: the amended status rule applied to the 204 and 200
oracles. -/
theorem c9_http_error_witness :
    get_pickups_aux fetch204 1 reqBase = .error (.http "no content" 204)
    ∧ get_pickups_aux fetch200 1 reqBase = .ok [p2, p3] :=
  ⟨(c9_http_error_iff_not_200 fetch204 0 reqBase).1 (by decide),
   (c9_http_error_iff_not_200 fetch200 0 reqBase).2 (by decide) [p2, p3] (by decide)⟩

/-- C8, counterexample: parsing "25a-b" yields suffix "ab" — the letter
after the non-letter separator "-" does enter the suffix, contrary to the
claim that such characters are discarded. -/
theorem c8_separator_counterexample :
    split_number_and_suffix "25a-b" = some (25, "ab")
    ∧ some ((25 : Nat), "ab") ≠ some ((25 : Nat), "a") := by
  decide

/-- Helper: `takeWhile` stops exactly at the boundary between a block that
satisfies the predicate and a remainder whose head does not. -/
theorem takeWhile_append_all {p : Char → Bool} (ds rest : List Char)
    (h1 : ∀ c ∈ ds, p c = true) (h2 : ∀ c, rest.head? = some c → p c = false) :
    (ds ++ rest).takeWhile p = ds := by
  induction ds with
  | nil =>
    cases rest with
    | nil => rfl
    | cons r t => simp [List.takeWhile_cons, h2 r rfl]
  | cons d t ih =>
    simp only [List.cons_append, List.takeWhile_cons, h1 d (List.mem_cons_self d t),
      if_true, List.cons.injEq, true_and]
    exact ih fun c hc => h1 c (List.mem_cons_of_mem d hc)

/-- C8, amended: parsing scans the leading digits into the numeric part
and takes as the suffix every ASCII letter occurring anywhere in the
remainder — non-letters are skipped rather than terminating the scan, so
letters after a separator do enter the suffix; the claim's concrete
examples "25a" ↦ (25, "a") and "007" ↦ (7, "") hold. -/
theorem c8_house_number_parsing :
    split_number_and_suffix "25a" = some (25, "a")
    ∧ split_number_and_suffix "007" = some (7, "")
    ∧ ∀ ds rest : List Char, ds ≠ [] → rest ≠ [] →
        (∀ c ∈ ds, c.isDigit = true) →
        (∀ c, rest.head? = some c → c.isDigit = false) →
        split_number_and_suffix (String.mk (ds ++ rest))
          = some (digitsToNat ds, String.mk (rest.filter Char.isAlpha)) := by
  refine ⟨by decide, by decide, fun ds rest hds hrest hall hhead => ?_⟩
  have htw : (ds ++ rest).takeWhile (fun c => c.isDigit) = ds :=
    takeWhile_append_all ds rest hall hhead
  have hempty : ds.isEmpty = false := by
    cases ds with
    | nil => exact absurd rfl hds
    | cons d t => rfl
  have hlen : ds.length ≠ (ds ++ rest).length := by
    have hpos : 0 < rest.length := List.length_pos.mpr hrest
    simp only [List.length_append]
    omega
  simp only [split_number_and_suffix, htw, hempty, Bool.false_eq_true, if_false, hlen,
    if_neg hlen, List.drop_left, Option.some.injEq]

/-- C8, witness: the general parsing shape applied to the digits "25"
followed by the remainder "a-b". -/
theorem c8_house_number_parsing_witness :
    split_number_and_suffix (String.mk (['2', '5'] ++ ['a', '-', 'b']))
      = some (digitsToNat ['2', '5'], String.mk (List.filter Char.isAlpha ['a', '-', 'b'])) :=
  c8_house_number_parsing.2.2 ['2', '5'] ['a', '-', 'b']
    (by decide) (by decide) (by decide) (by decide)

/-- C2: `find_location` is trichotomous on the sorted survivors of the
name filter and the optional exact district filter — an empty survivor
list fails with `NoLocationFound` carrying the queried name, a singleton
is returned, and two or more survivors fail with `AmbiguousLocations`
carrying the complete sorted survivor list. -/
theorem c2_find_location_trichotomy (catalog : List Location) (name : String)
    (district : Option String) :
    (survivors catalog name district = [] →
      find_location catalog name district = .error (.noLocationFound name))
    ∧ (∀ l, survivors catalog name district = [l] →
      find_location catalog name district = .ok l)
    ∧ (1 < (survivors catalog name district).length →
      find_location catalog name district
        = .error (.ambiguousLocations (survivors catalog name district))) := by
  refine ⟨fun h => ?_, fun l h => ?_, fun h => ?_⟩
  · simp [find_location, h]
  · simp [find_location, h]
  · match hs : survivors catalog name district with
    | [] => rw [hs] at h; simp at h
    | [l] => rw [hs] at h; simp at h
    | l :: m :: rest => simp [find_location, hs]

/-- C2, witness: the three branches of the trichotomy at concrete
catalogs. -/
theorem c2_find_location_trichotomy_witness :
    find_location [] "Foo" none = .error (.noLocationFound "Foo")
    ∧ find_location [locFoo] "Foo" none = .ok locFoo
    ∧ find_location [locFoo, locFoo2] "Foo" none
      = .error (.ambiguousLocations (survivors [locFoo, locFoo2] "Foo" none)) :=
  ⟨(c2_find_location_trichotomy [] "Foo" none).1 (by decide),
   (c2_find_location_trichotomy [locFoo] "Foo" none).2.1 locFoo (by decide),
   (c2_find_location_trichotomy [locFoo, locFoo2] "Foo" none).2.2 (by decide)⟩

/-- Helper: splitting a list that does not contain the separator yields
the list itself as the only group. -/
theorem splitAtChar_not_mem {c : Char} {xs : List Char} (h : c ∉ xs) :
    splitAtChar c xs = [xs] := by
  induction xs with
  | nil => rfl
  | cons x t ih =>
    rw [List.mem_cons, not_or] at h
    have hx : ¬ x = c := fun e => h.1 e.symm
    simp [splitAtChar, hx, ih h.2]

/-- Helper: splitting peels off a separator-free block before the first
separator. -/
theorem splitAtChar_append {c : Char} {a : List Char} (rest : List Char) (h : c ∉ a) :
    splitAtChar c (a ++ c :: rest) = a :: splitAtChar c rest := by
  induction a with
  | nil => simp [splitAtChar]
  | cons x t ih =>
    rw [List.mem_cons, not_or] at h
    have hx : ¬ x = c := fun e => h.1 e.symm
    simp [splitAtChar, hx, ih h.2]

/-- C10: when no field contains the `@` delimiter, parsing the canonical
string form of a location returns the original location:
`Location.from_string (str(location)) = location`. -/
theorem c10_location_roundtrip (l : Location)
    (h1 : '@' ∉ l.id.data) (h2 : '@' ∉ l.name.data) (h3 : '@' ∉ l.district.data) :
    Location.from_string l.toStr = some l := by
  obtain ⟨⟨ci⟩, ⟨cn⟩, ⟨cd⟩⟩ := l
  simp only [Location.toStr, Location.from_string] at h1 h2 h3 ⊢
  rw [splitAtChar_append _ h1, splitAtChar_append _ h2, splitAtChar_not_mem h3]

/-- C10, witness: the roundtrip at a concrete location. -/
theorem c10_location_roundtrip_witness :
    Location.from_string (Location.toStr ⟨"67", "Fenskestraße", "List"⟩)
      = some ⟨"67", "Fenskestraße", "List"⟩ :=
  c10_location_roundtrip ⟨"67", "Fenskestraße", "List"⟩ (by decide) (by decide) (by decide)

end Aha

